import Mathlib

/-!
A shallow embedding of `src/app/main.py`, a single-file Redis-like server.

Conventions of the embedding:
* Python `str`/`bytes` values are modelled as Lean `String` / `List Char`
  (the code decodes every inbound payload to `str` and all payloads in the
  claims are byte-for-byte their UTF-8 text, so one character stands for one
  byte; the code's length headers count `str` characters, which matches).
* Python dicts are association lists with in-place update and append-on-new,
  which is exactly the (insertion-ordered) Python dict semantics used by the
  code (`store`, `expiry`, stream `entries`, entry field maps).
* `time.time()` is modelled by an explicit `now : Nat` parameter measured in
  milliseconds; `expiry` deadlines are `Int` (`now + px` where `px` may be
  negative), mirroring `time.time() + int(ms)/1000.0` up to the fixed factor
  1000 (float rounding is not modelled).
* Stream entry IDs are stored parsed as `(ms, seq) : Nat × Nat`; the wire form
  is the canonical decimal `ms-seq`.  The Python code stores the textual ID
  and re-parses it at each comparison; the two agree on canonically formatted
  IDs, which is what all theorems below quantify over.
* An uncaught Python exception inside `handle_command` (e.g. an `IndexError`
  from a missing argument) is modelled by the `Outcome.crash` constructor:
  the per-connection loop `client_thread` catches it with
  `except Exception: break` and closes the socket.
-/

namespace RedisClone

/-- The characters (= bytes) of a string literal. -/
def lc (s : String) : List Char := s.data

/-- Python `str.upper()` on the ASCII words it is applied to (command names
and option keywords): uppercase character by character.  (`String.toUpper`
itself is not kernel-reducible, so the map is spelled out on `data`.) -/
def upper (s : String) : String := String.mk (s.data.map Char.toUpper)

/-- Is `p` a prefix of `l`? -/
def listStarts : List Char → List Char → Bool
  | [], _ => true
  | _ :: _, [] => false
  | p :: ps, c :: cs => p == c && listStarts ps cs

/-- Python `s.startswith(pre)` (spelled out on `data`; `String.startsWith`
itself is not kernel-reducible). -/
def strStarts (s pre : String) : Bool := listStarts pre.data s.data

/-- Python `dict` lookup (`d[k]` / `k in d`). -/
def dlookup {κ α : Type} [DecidableEq κ] : List (κ × α) → κ → Option α
  | [], _ => none
  | (k1, v) :: r, k => if k1 = k then some v else dlookup r k

/-- Python `dict` assignment `d[k] = v`: update in place, append when new. -/
def dset {κ α : Type} [DecidableEq κ] : List (κ × α) → κ → α → List (κ × α)
  | [], k, v => [(k, v)]
  | (k1, v1) :: r, k, v => if k1 = k then (k, v) :: r else (k1, v1) :: dset r k v

/-- Python `del d[k]` (the code always guards the key's presence or crashes). -/
def derase {κ α : Type} [DecidableEq κ] : List (κ × α) → κ → List (κ × α)
  | [], _ => []
  | (k1, v1) :: r, k => if k1 = k then r else (k1, v1) :: derase r k

/-- Canonical decimal digits of a natural number, fuel-driven so that the
kernel can evaluate it (`str(n)` / f-string formatting of a nonnegative int). -/
def natDigitsAux : Nat → Nat → List Char → List Char
  | 0, _, acc => acc
  | fuel + 1, n, acc =>
    if n < 10 then Char.ofNat (48 + n) :: acc
    else natDigitsAux fuel (n / 10) (Char.ofNat (48 + n % 10) :: acc)

/-- `str(n)` for `n : Nat`. -/
def natDigits (n : Nat) : List Char := natDigitsAux (n + 1) n []

/-- `str(n)` for `n : Int` (a `-` sign followed by the decimal magnitude). -/
def intDigits (n : Int) : List Char :=
  if n < 0 then '-' :: natDigits n.natAbs else natDigits n.toNat

/-- Parse a nonempty all-digit string as a natural number (the digits-only
fragment of Python `int()`). -/
def parseNat? (l : List Char) : Option Nat :=
  if l = [] then none
  else if l.all Char.isDigit then
    some (l.foldl (fun a c => a * 10 + (c.toNat - 48)) 0)
  else none

/-- Python `int()` on a decimal string with an optional leading minus sign
(the forms `"+5"`, whitespace and underscores that Python also tolerates do
not occur in this development and are not modelled). -/
def parseInt? (l : List Char) : Option Int :=
  if l.head? = some '-' then (parseNat? (l.drop 1)).map (fun n => -(n : Int))
  else (parseNat? l).map (fun n => (n : Int))

/-- Prepend a character onto the first piece of a split result. -/
def consHead (c : Char) : List (List Char) → List (List Char)
  | [] => [[c]]
  | h :: t => (c :: h) :: t

/-- Python `buffer.split(b"\r\n")`: leftmost, non-overlapping splitting on the
two-byte separator CRLF. -/
def splitCRLF : List Char → List (List Char)
  | [] => [[]]
  | [c] => [[c]]
  | c1 :: c2 :: rest =>
    if c1 = '\r' ∧ c2 = '\n' then [] :: splitCRLF rest
    else consHead c1 (splitCRLF (c2 :: rest))

/-- Python `s.split('-')`. -/
def splitDash : List Char → List (List Char)
  | [] => [[]]
  | c :: rest => if c = '-' then [] :: splitDash rest else consHead c (splitDash rest)

/-- Python `b"\r\n".join(lines)`. -/
def joinCRLF : List (List Char) → List Char
  | [] => []
  | [l] => l
  | l :: ls => l ++ '\r' :: '\n' :: joinCRLF ls

/-- Does the byte string contain the CRLF sequence? -/
def hasCRLF : List Char → Bool
  | [] => false
  | [_] => false
  | c1 :: c2 :: rest => (c1 = '\r' ∧ c2 = '\n') || hasCRLF (c2 :: rest)

/-- Python `s.split('.')` (used only by the `float()` model). -/
def splitDot : List Char → List (List Char)
  | [] => [[]]
  | c :: rest => if c = '.' then [] :: splitDot rest else consHead c (splitDot rest)

/-- Digits-with-optional-point fragment of Python `float()`, as an exact
rational (the BLPOP timeout is only compared with `0` and with wall-clock
time, so exact rationals are a faithful model of the float for the claims). -/
def parseUFloat? (l : List Char) : Option Rat :=
  match splitDot l with
  | [ip] => (parseNat? ip).map (fun n => (n : Rat))
  | [ip, fp] =>
    if ip = [] ∧ fp = [] then none
    else if ip.all Char.isDigit ∧ fp.all Char.isDigit then
      some ((((parseNat? (ip ++ fp)).getD 0 : Nat) : Rat) / ((10 : Rat) ^ fp.length))
    else none
  | _ => none

/-- Python `float()` on plain decimal notation. -/
def parseFloat? : List Char → Option Rat
  | '-' :: rest => (parseUFloat? rest).map (fun q => -q)
  | l => parseUFloat? l

/-! ## Data model (`store` / `expiry`, main.py lines 5-6) -/

/-- A value in `store`: a Python `str`, `list`, or a stream dict
`{'entries': {id_string: {field: value, ...}, ...}}`.  Stream entry IDs are
kept parsed as `(ms, seq)` pairs (canonical decimal on the wire). -/
inductive Val where
  | str : String → Val
  | list : List String → Val
  | stream : List ((Nat × Nat) × List (String × String)) → Val
deriving DecidableEq, Repr

/-- The two global tables `store` and `expiry`. -/
structure SState where
  store : List (String × Val)
  expiry : List (String × Int)
deriving DecidableEq, Repr

/-- This connection's entry in `client_transactions`: `none` when the
connection is not in MULTI, otherwise the queued command list. -/
abbrev TxState := Option (List (List String))

/-- The `entries` of the stream stored at `k`, or `[]` when `k` is absent,
not a stream, or an empty stream — exactly the guard
`key not in store or not isinstance(store[key], dict) or not
store[key].get('entries')` used throughout main.py. -/
def entriesOf (st : SState) (k : String) : List ((Nat × Nat) × List (String × String)) :=
  match dlookup st.store k with
  | some (.stream es) => es
  | _ => []

/-! ## RESP encoder (`encode_resp`, main.py lines 300-326) -/

/-- A Python reply value fed to `encode_resp`: `None`, `str`, `int`, or a
(nested) `list` of such. -/
inductive RVal where
  | nil : RVal
  | s : String → RVal
  | i : Int → RVal
  | arr : List RVal → RVal
deriving Repr

mutual

/-- `encode_resp` (main.py lines 300-326).  The per-item branches of the
Python `list` case coincide with a recursive call, and the trailing
`+OK\r\n` fallback for unrepresentable inputs is unreachable on `RVal`. -/
def encode_resp : RVal → List Char
  | .nil => lc "$-1\r\n"
  | .s x => '$' :: natDigits x.length ++ '\r' :: '\n' :: x.data ++ ['\r', '\n']
  | .i n => ':' :: intDigits n ++ ['\r', '\n']
  | .arr xs => '*' :: natDigits xs.length ++ '\r' :: '\n' :: encodeItems xs

/-- The item loop inside `encode_resp`'s `list` branch. -/
def encodeItems : List RVal → List Char
  | [] => []
  | x :: xs => encode_resp x ++ encodeItems xs

end

/-! ## RESP decoder (`parse_resp`, main.py lines 263-297) -/

/-- The `for _ in range(n)` loop of `parse_resp`: consume `n` bulk strings
from the CRLF-split line list, returning the decoded parts and the
unconsumed lines (`none` models the `return None, buffer` exits). -/
def parseBulks : Nat → List (List Char) → Option (List String × List (List Char))
  | 0, ls => some ([], ls)
  | n + 1, ls =>
    match ls with
    | [] => none
    | l1 :: rest =>
      if l1.head? = some '$' then
        match parseInt? (l1.drop 1) with
        | none => none
        | some _ =>
          match rest with
          | [] => none
          | l2 :: rest2 =>
            match parseBulks n rest2 with
            | some (ps, r) => some (String.mk l2 :: ps, r)
            | none => none
      else none

/-- The inline branch of `parse_resp` (`buffer.decode().strip().split()`). -/
def inlineSplit (buffer : List Char) : List String :=
  ((String.mk buffer).trim.split Char.isWhitespace).filter (fun s => s ≠ "")

/-- `parse_resp` (main.py lines 263-297): either `(none, buffer)` ("need
more bytes" — the buffer is left intact) or `(some parts, remainder)`. -/
def parse_resp (buffer : List Char) : Option (List String) × List Char :=
  if buffer = [] then (none, buffer)
  else if buffer.head? = some '*' then
    match splitCRLF buffer with
    | [] => (none, buffer)
    | l0 :: lrest =>
      match parseInt? (l0.drop 1) with
      | none => (none, buffer)
      | some n =>
        match parseBulks n.toNat lrest with
        | none => (none, buffer)
        | some (parts, restLines) => (some parts, joinCRLF restLines)
  else (some (inlineSplit buffer), [])

/-! ## Stream ID engine (main.py lines 12-186) -/

/-- `compare_stream_ids` (main.py lines 112-128) on parsed IDs. -/
def compare_stream_ids (a b : Nat × Nat) : Int :=
  if a.1 < b.1 then -1
  else if a.1 > b.1 then 1
  else if a.2 < b.2 then -1
  else if a.2 > b.2 then 1
  else 0

/-- Canonical wire form `f"{ms}-{seq}"` of a parsed entry ID. -/
def fmtId (id : Nat × Nat) : String := String.mk (natDigits id.1 ++ '-' :: natDigits id.2)

/-- `generate_stream_id(key)` with `provided_id=None` (main.py lines 12-51);
`now` is `int(time.time() * 1000)`. -/
def generate_stream_id (now : Nat) (st : SState) (k : String) : Nat × Nat :=
  let es := entriesOf st k
  match es.getLast? with
  | none => (now, 0)
  | some lastE =>
    let maxSeq : Int :=
      es.foldl (fun acc e => if e.1.1 = now ∧ (e.1.2 : Int) > acc then (e.1.2 : Int) else acc) (-1)
    if 0 ≤ maxSeq then (now, (maxSeq + 1).toNat)
    else if now > lastE.1.1 then (now, 0)
    else if now = lastE.1.1 then (now, lastE.1.2 + 1)
    else (lastE.1.1, lastE.1.2 + 1)

/-- `generate_sequence_number` (main.py lines 54-86).  The timestamp is an
`Int` because the `<ms>-*` path feeds it the raw `int()` of the text before
the dash, which may be negative. -/
def generate_sequence_number (st : SState) (k : String) (ts : Int) : Nat :=
  let es := entriesOf st k
  if ts = 0 then
    if es = [] then 1
    else (es.foldl (fun acc e => if e.1.1 = 0 ∧ e.1.2 > acc then e.1.2 else acc) 0) + 1
  else
    if es = [] then 0
    else ((es.foldl (fun acc e =>
        if (e.1.1 : Int) = ts ∧ (e.1.2 : Int) > acc then (e.1.2 : Int) else acc) (-1)) + 1).toNat

/-- `validate_final_id` (main.py lines 152-185) after its successful
`int()` parse of both ID components. -/
def validate_final_id (st : SState) (k : String) (ts seq : Nat) : Bool :=
  if ts = 0 ∧ seq = 0 then false
  else
    match (entriesOf st k).getLast? with
    | none => true
    | some lastE => decide (ts > lastE.1.1 ∨ (ts = lastE.1.1 ∧ seq > lastE.1.2))

/-- Does the ID text end with `-*`? -/
def endsDashStar (d : List Char) : Bool :=
  match d.reverse with
  | c1 :: c2 :: _ => (c1 == '*') && (c2 == '-')
  | _ => false

/-- Parse `a-b` into a pair, `none` when `map(int, id.split('-'))` plus the
two-way unpacking would raise (used where the Python code parses stored or
user-supplied IDs outside a `try`). -/
def parseIdPair? (d : List Char) : Option (Nat × Nat) :=
  match splitDash d with
  | [a, b] =>
    match parseNat? a, parseNat? b with
    | some t1, some t2 => some (t1, t2)
    | _, _ => none
  | _ => none

/-- Outcome of the XADD ID-resolution block (main.py lines 663-685): the
final ID plus the exact text replied on success, or one of the two errors. -/
inductive XaddIdRes where
  | ok : Nat × Nat → String → XaddIdRes
  | err00 : XaddIdRes
  | errTop : XaddIdRes

/-- The ID-format dispatch of the XADD handler (main.py lines 663-685),
running over `validate_stream_id` (lines 89-109) and `validate_final_id`.
For an invalid `<ms>-*` request the code consults `final_id.split('-')`,
which (for `ts ≥ 0`) designates `0-0` exactly when `ts = 0 ∧ seq = 0`; for a
negative `ts` the re-parse inside `validate_final_id` fails and the reply is
the "equal or smaller" error. -/
def xadd_resolve_id (now : Nat) (st : SState) (k : String) (idStr : String) : XaddIdRes :=
  let d := idStr.data
  if d = ['*'] then
    let fid := generate_stream_id now st k
    .ok fid (fmtId fid)
  else if endsDashStar d then
    match parseInt? (d.dropLast.dropLast) with
    | none => .errTop
    | some ts =>
      let seq := generate_sequence_number st k ts
      if ts < 0 then .errTop
      else if validate_final_id st k ts.toNat seq then .ok (ts.toNat, seq) (fmtId (ts.toNat, seq))
      else if ts = 0 ∧ seq = 0 then .err00
      else .errTop
  else
    match splitDash d with
    | [a, b] =>
      match parseInt? a, parseInt? b with
      | some ts, some sq =>
        if validate_final_id st k ts.toNat sq.toNat then .ok (ts.toNat, sq.toNat) idStr
        else if idStr = "0-0" then .err00
        else .errTop
      | _, _ => if idStr = "0-0" then .err00 else .errTop
    | _ => if idStr = "0-0" then .err00 else .errTop

/-- The field/value dict built by the XADD handler (main.py lines 688-692). -/
def buildFieldsAux : List (String × String) → List String → List (String × String)
  | acc, f :: v :: rest => buildFieldsAux (dset acc f v) rest
  | acc, _ => acc

/-- `entry_data` from the flat `field value ...` tail. -/
def buildFields (fvs : List String) : List (String × String) := buildFieldsAux [] fvs

/-- `[field1, value1, field2, value2, ...]` reply formatting of entry data
(main.py lines 736-739 and elsewhere). -/
def fieldFlat : List (String × String) → List RVal
  | [] => []
  | (f, v) :: r => .s f :: .s v :: fieldFlat r

/-- `[entry_id, field_value_list]` reply formatting of one stream entry. -/
def entryRVal (e : (Nat × Nat) × List (String × String)) : RVal :=
  .arr [.s (fmtId e.1), .arr (fieldFlat e.2)]

/-- `max(entries.keys(), key=parsed-pair)` (main.py line 815). -/
def maxEntryId (es : List ((Nat × Nat) × List (String × String))) : Nat × Nat :=
  match es with
  | [] => (0, 0)
  | e :: r => r.foldl (fun acc e2 => if compare_stream_ids e2.1 acc > 0 then e2.1 else acc) e.1

/-- One endpoint of an XRANGE query after `normalize_range_id`. -/
inductive RangeEnd where
  | id : Nat × Nat → RangeEnd
  | plus : RangeEnd

/-- `normalize_range_id` (main.py lines 131-149) combined with the parse
that `compare_stream_ids` later performs on the normalized text; `none`
models the uncaught `int()` error on malformed IDs. -/
def normalize_range_id (d : List Char) (isStart : Bool) : Option RangeEnd :=
  if d = ['-'] then some (.id (0, 0))
  else if d = ['+'] then some .plus
  else if ¬ d.contains '-' then
    match parseNat? d with
    | some ts => some (.id (ts, if isStart then 0 else 18446744073709551615))
    | none => none
  else (parseIdPair? d).map .id

/-! ## `execute_single_command` (main.py lines 329-391) -/

/-- Result of `execute_single_command`: a returned value, a raised
`ValueError` (with its message), or any other exception. -/
inductive ExecRes where
  | ok : RVal → ExecRes
  | valueErr : String → ExecRes
  | otherErr : ExecRes

/-- The compound guard `key in expiry and time.time() > expiry[key]`. -/
def expiredCheck (st : SState) (now : Nat) (k : String) : Bool :=
  match dlookup st.expiry k with
  | some dl => decide ((now : Int) > dl)
  | none => false

/-- The shared body of INCR once lazy expiry has run (main.py lines 365-387
and 509-531): look up the key, parse, increment and write back. -/
def incrCore (st : SState) (k : String) : SState × ExecRes :=
  match dlookup st.store k with
  | some (.str s1) =>
    match parseInt? s1.data with
    | some cur =>
      ({ st with store := dset st.store k (.str (String.mk (intDigits (cur + 1)))) },
       .ok (.i (cur + 1)))
    | none => (st, .valueErr "ERR value is not an integer or out of range")
  | some _ =>
    (st, .valueErr "ERR WRONGTYPE Operation against a key holding the wrong kind of value")
  | none => ({ st with store := dset st.store k (.str "1") }, .ok (.i 1))

/-- `execute_single_command` (main.py lines 329-391), used only by EXEC. -/
def execute_single_command (now : Nat) (parts : List String) (st : SState) : SState × ExecRes :=
  match parts with
  | [] => (st, .ok .nil)
  | w :: rest =>
    match upper w with
    | "SET" =>
      match rest.get? 0, rest.get? 1 with
      | some k, some v =>
        let st1 : SState := { st with store := dset st.store k (.str v) }
        match rest.get? 2 with
        | some w3 =>
          if upper w3 = "PX" then
            match rest.get? 3 with
            | some m =>
              match parseInt? m.data with
              | some px =>
                ({ st1 with expiry := dset st1.expiry k ((now : Int) + px) }, .ok (.s "OK"))
              | none => (st1, .valueErr ("invalid literal for int() with base 10: " ++ m))
            | none => (st1, .otherErr)
          else (st1, .ok (.s "OK"))
        | none => (st1, .ok (.s "OK"))
      | _, _ => (st, .otherErr)
    | "GET" =>
      match rest.get? 0 with
      | none => (st, .otherErr)
      | some k =>
        if expiredCheck st now k then
          match dlookup st.store k with
          | some _ => (⟨derase st.store k, derase st.expiry k⟩, .ok .nil)
          | none => (st, .otherErr)
        else
          match dlookup st.store k with
          | some (.str s1) => (st, .ok (.s s1))
          | _ => (st, .ok .nil)
    | "INCR" =>
      match rest.get? 0 with
      | none => (st, .otherErr)
      | some k =>
        if expiredCheck st now k then
          match dlookup st.store k with
          | some _ => incrCore ⟨derase st.store k, derase st.expiry k⟩ k
          | none => (st, .otherErr)
        else incrCore st k
    | _ => (st, .valueErr "ERR unknown command")

/-- How the EXEC loop (main.py lines 428-443) turns one command's outcome
into an element of the reply array: `ValueError` messages become plain
strings (with `ERR ` prefixed when missing), any other exception becomes
`"ERR server error"`. -/
def execResToRVal : ExecRes → RVal
  | .ok v => v
  | .valueErr m => .s (if strStarts m "ERR " then m else "ERR " ++ m)
  | .otherErr => .s "ERR server error"

/-- Run all queued commands in order, threading the keyspace and collecting
the reply values (the EXEC loop, main.py lines 428-443). -/
def execAll (now : Nat) (st : SState) : List (List String) → SState × List RVal
  | [] => (st, [])
  | c :: cs =>
    let r1 := execute_single_command now c st
    let r2 := execAll now r1.1 cs
    (r2.1, execResToRVal r1.2 :: r2.2)

/-! ## The dispatcher `handle_command` (main.py lines 394-865) -/

/-- The observable outcome of one `handle_command(conn, command_parts)`
call, for this connection, in the absence of concurrent writers:
* `reply b st tx`: `conn.sendall(b)` was called once and the function
  returned, leaving the global tables at `st` and this connection's
  transaction state at `tx`;
* `noReply`: the function returned without sending (empty command list);
* `crash`: an exception escaped `handle_command` (the caller
  `client_thread` then breaks out of its loop and closes the socket);
* `blocked`: the command suspended without a reply (BLPOP with timeout 0,
  or XREAD BLOCK registering in `blocking_clients`). -/
inductive Outcome where
  | reply : List Char → SState → TxState → Outcome
  | noReply : SState → TxState → Outcome
  | crash : SState → TxState → Outcome
  | blocked : SState → TxState → Outcome
deriving DecidableEq, Repr

/-- The keyspace after the dispatch. -/
def Outcome.stOf : Outcome → SState
  | .reply _ s _ => s
  | .noReply s _ => s
  | .crash s _ => s
  | .blocked s _ => s

/-- The transaction state after the dispatch. -/
def Outcome.txOf : Outcome → TxState
  | .reply _ _ t => t
  | .noReply _ t => t
  | .crash _ t => t
  | .blocked _ t => t

/-- The bytes sent on the connection by the dispatch, if any. -/
def Outcome.bytesOf : Outcome → Option (List Char)
  | .reply b _ _ => some b
  | _ => none

/-- Does `client_thread` (main.py lines 868-890) close the connection after
this dispatch?  Exactly when an exception escaped `handle_command`: the
`except Exception: break` arm leaves the read loop and runs `conn.close()`. -/
def client_closes : Outcome → Bool
  | .crash _ _ => true
  | _ => false

/-- Is the list at `k` ready for BLPOP
(`k in store and isinstance(store[k], list) and store[k]`)? -/
def blpopReady (st : SState) (k : String) : Bool :=
  match dlookup st.store k with
  | some (.list (_ :: _)) => true
  | _ => false

/-- The INCR reply logic shared by the expired and fresh paths
(main.py lines 509-531). -/
def incrReply (st : SState) (tx : TxState) (k : String) : Outcome :=
  match dlookup st.store k with
  | some (.str s1) =>
    match parseInt? s1.data with
    | some cur =>
      .reply (encode_resp (.i (cur + 1)))
        { st with store := dset st.store k (.str (String.mk (intDigits (cur + 1)))) } tx
    | none => .reply (lc "-ERR value is not an integer or out of range\r\n") st tx
  | some _ =>
    .reply (lc "-ERR WRONGTYPE Operation against a key holding the wrong kind of value\r\n") st tx
  | none => .reply (encode_resp (.i 1)) { st with store := dset st.store k (.str "1") } tx

/-- The per-stream loop of the XREAD handler (main.py lines 802-847):
resolve `$`, skip absent/empty streams, filter entries strictly after the
start ID and collect `[key, entries]` groups; `none` models the uncaught
`int()` error on a malformed explicit start ID of a nonempty stream. -/
def xreadCollect (st : SState) : List String → List String → Option (List RVal)
  | [], _ => some []
  | _ :: _, [] => some []
  | k1 :: ks, i1 :: is1 =>
    let es := entriesOf st k1
    let dollar? : Option (Nat × Nat) :=
      if i1 = "$" then (if es = [] then some (0, 0) else some (maxEntryId es)) else none
    if es = [] then xreadCollect st ks is1
    else
      match (match dollar? with
             | some p => some p
             | none => parseIdPair? i1.data) with
      | none => none
      | some sp =>
        match xreadCollect st ks is1 with
        | none => none
        | some r2 =>
          let hits := (es.filter (fun e => compare_stream_ids e.1 sp > 0)).map entryRVal
          some (if hits.isEmpty then r2 else .arr [.s k1, .arr hits] :: r2)

/-- The `TYPE` reply text for a stored value (main.py lines 629-642). -/
def typeName : Val → String
  | .str _ => "string"
  | .list _ => "list"
  | .stream _ => "stream"

/-- The ECHO arm (main.py lines 405-406); with no argument the `elif`
condition fails and control falls through to the final `else`. -/
def cmdECHO (rest : List String) (st : SState) (tx : TxState) : Outcome :=
  match rest.get? 0 with
  | some m => .reply (encode_resp (.s m)) st tx
  | none => .reply (lc "-ERR unknown command\r\n") st tx

/-- The MULTI arm (main.py lines 409-416). -/
def cmdMULTI (st : SState) (tx : TxState) : Outcome :=
  match tx with
  | some q => .reply (lc "-ERR MULTI calls can not be nested\r\n") st (some q)
  | none => .reply (lc "+OK\r\n") st (some [])

/-- The EXEC arm (main.py lines 419-449). -/
def cmdEXEC (now : Nat) (st : SState) (tx : TxState) : Outcome :=
  match tx with
  | none => .reply (lc "-ERR EXEC without MULTI\r\n") st none
  | some q =>
    let r := execAll now st q
    .reply (encode_resp (.arr r.2)) r.1 none

/-- The DISCARD arm (main.py lines 452-460). -/
def cmdDISCARD (st : SState) (tx : TxState) : Outcome :=
  match tx with
  | none => .reply (lc "-ERR DISCARD without MULTI\r\n") st none
  | some _ => .reply (lc "+OK\r\n") st none

/-- The SET arm (main.py lines 463-474). -/
def cmdSET (now : Nat) (w : String) (rest : List String) (st : SState) (tx : TxState) : Outcome :=
  match tx with
  | some q => .reply (lc "+QUEUED\r\n") st (some (q ++ [w :: rest]))
  | none =>
    match rest.get? 0, rest.get? 1 with
    | some k, some v =>
      let st1 : SState := { st with store := dset st.store k (.str v) }
      match rest.get? 2 with
      | some w3 =>
        if upper w3 = "PX" then
          match rest.get? 3 with
          | some m =>
            match parseInt? m.data with
            | some px =>
              .reply (lc "+OK\r\n")
                { st1 with expiry := dset st1.expiry k ((now : Int) + px) } tx
            | none => .crash st1 tx
          | none => .crash st1 tx
        else .reply (lc "+OK\r\n") st1 tx
      | none => .reply (lc "+OK\r\n") st1 tx
    | _, _ => .crash st tx

/-- The GET arm (main.py lines 477-492). -/
def cmdGET (now : Nat) (w : String) (rest : List String) (st : SState) (tx : TxState) : Outcome :=
  match tx with
  | some q => .reply (lc "+QUEUED\r\n") st (some (q ++ [w :: rest]))
  | none =>
    match rest.get? 0 with
    | none => .crash st tx
    | some k =>
      if expiredCheck st now k then
        match dlookup st.store k with
        | some _ => .reply (lc "$-1\r\n") ⟨derase st.store k, derase st.expiry k⟩ tx
        | none => .crash st tx
      else
        match dlookup st.store k with
        | some (.str s1) => .reply (encode_resp (.s s1)) st tx
        | _ => .reply (lc "$-1\r\n") st tx

/-- The INCR arm (main.py lines 495-531). -/
def cmdINCR (now : Nat) (w : String) (rest : List String) (st : SState) (tx : TxState) : Outcome :=
  match tx with
  | some q => .reply (lc "+QUEUED\r\n") st (some (q ++ [w :: rest]))
  | none =>
    match rest.get? 0 with
    | none => .crash st tx
    | some k =>
      if expiredCheck st now k then
        match dlookup st.store k with
        | some _ => incrReply ⟨derase st.store k, derase st.expiry k⟩ tx k
        | none => .crash st tx
      else incrReply st tx k

/-- The RPUSH arm (main.py lines 534-540): a key absent or holding a
non-list value is overwritten with a fresh empty list before the extend. -/
def cmdRPUSH (rest : List String) (st : SState) (tx : TxState) : Outcome :=
  match rest.get? 0 with
  | none => .crash st tx
  | some k =>
    let values := rest.drop 1
    let cur := match dlookup st.store k with
      | some (.list l) => l
      | _ => []
    let newList := cur ++ values
    .reply (encode_resp (.i (newList.length : Int)))
      { st with store := dset st.store k (.list newList) } tx

/-- The LPUSH arm (main.py lines 543-551). -/
def cmdLPUSH (rest : List String) (st : SState) (tx : TxState) : Outcome :=
  match rest.get? 0 with
  | none => .crash st tx
  | some k =>
    let values := rest.drop 1
    let cur := match dlookup st.store k with
      | some (.list l) => l
      | _ => []
    let newList := values.foldl (fun acc v => v :: acc) cur
    .reply (encode_resp (.i (newList.length : Int)))
      { st with store := dset st.store k (.list newList) } tx

/-- The LPOP arm (main.py lines 554-566). -/
def cmdLPOP (rest : List String) (st : SState) (tx : TxState) : Outcome :=
  match rest.get? 0 with
  | none => .crash st tx
  | some k =>
    match (match rest.get? 1 with
           | some cstr => parseInt? cstr.data
           | none => some 1) with
    | none => .crash st tx
    | some count =>
      match dlookup st.store k with
      | some (.list (p :: pr)) =>
        let l := p :: pr
        let npop := (min count (l.length : Int)).toNat
        let popped := l.take npop
        let st1 : SState := { st with store := dset st.store k (.list (l.drop npop)) }
        if count = 1 then
          match popped with
          | p1 :: _ => .reply (encode_resp (.s p1)) st1 tx
          | [] => .crash st1 tx
        else .reply (encode_resp (.arr (popped.map RVal.s))) st1 tx
      | _ => .reply (lc "$-1\r\n") st tx

/-- The BLPOP arm (main.py lines 569-589) under the sequential reading of
the busy-wait loop: with a positive finite timeout and no satisfiable key
in the (unchanging) store, the deadline passes and the null array is sent. -/
def cmdBLPOP (w : String) (rest : List String) (st : SState) (tx : TxState) : Outcome :=
  let keys := rest.dropLast
  let tstr := rest.getLastD w
  match parseFloat? tstr.data with
  | none => .crash st tx
  | some t =>
    if t = 0 then .blocked st tx
    else if t < 0 then .reply (lc "*-1\r\n") st tx
    else
      match keys.find? (fun k1 => blpopReady st k1) with
      | some k1 =>
        match dlookup st.store k1 with
        | some (.list (v :: vr)) =>
          .reply (encode_resp (.arr [.s k1, .s v]))
            { st with store := dset st.store k1 (.list vr) } tx
        | _ => .crash st tx
      | none => .reply (lc "*-1\r\n") st tx

/-- The LRANGE arm (main.py lines 592-616). -/
def cmdLRANGE (rest : List String) (st : SState) (tx : TxState) : Outcome :=
  match rest.get? 0, rest.get? 1, rest.get? 2 with
  | some k, some sstr, some estr =>
    match parseInt? sstr.data, parseInt? estr.data with
    | some start0, some stop0 =>
      match dlookup st.store k with
      | some (.list l) =>
        let n : Int := l.length
        let start1 := if start0 < 0 then n + start0 else start0
        let stop1 := if stop0 < 0 then n + stop0 else stop0
        let start2 := max 0 start1
        let stop2 := min (n - 1) stop1
        if start2 ≤ stop2 ∧ start2 < n then
          .reply (encode_resp (.arr
            (((l.drop start2.toNat).take (stop2 - start2 + 1).toNat).map RVal.s))) st tx
        else .reply (encode_resp (.arr [])) st tx
      | _ => .reply (encode_resp (.arr [])) st tx
    | _, _ => .crash st tx
  | _, _, _ => .crash st tx

/-- The LLEN arm (main.py lines 619-626). -/
def cmdLLEN (rest : List String) (st : SState) (tx : TxState) : Outcome :=
  match rest.get? 0 with
  | none => .crash st tx
  | some k =>
    match dlookup st.store k with
    | some (.list l) => .reply (encode_resp (.i (l.length : Int))) st tx
    | _ => .reply (encode_resp (.i 0)) st tx

/-- The TYPE arm (main.py lines 629-642); the trailing `else: "none"` for a
dict without an `entries` key is unreachable on `Val`. -/
def cmdTYPE (rest : List String) (st : SState) (tx : TxState) : Outcome :=
  match rest.get? 0 with
  | none => .crash st tx
  | some k =>
    match dlookup st.store k with
    | none => .reply (encode_resp (.s "none")) st tx
    | some v => .reply (encode_resp (.s (typeName v))) st tx

/-- The XADD arm (main.py lines 645-701); note that the stream (possibly
clobbering a string or list value) is created before ID validation. -/
def cmdXADD (now : Nat) (w : String) (rest : List String) (st : SState) (tx : TxState) : Outcome :=
  if (w :: rest).length < 4 then .reply (lc "-ERR wrong number of arguments\r\n") st tx
  else
    match rest.get? 0, rest.get? 1 with
    | some k, some idStr =>
      let fvs := rest.drop 2
      if fvs.length % 2 ≠ 0 then .reply (lc "-ERR wrong number of arguments\r\n") st tx
      else
        let st1 : SState :=
          match dlookup st.store k with
          | some (.stream _) => st
          | _ => { st with store := dset st.store k (.stream []) }
        match xadd_resolve_id now st1 k idStr with
        | .err00 =>
          .reply (lc "-ERR The ID specified in XADD must be greater than 0-0\r\n") st1 tx
        | .errTop =>
          .reply
            (lc "-ERR The ID specified in XADD is equal or smaller than the target stream top item\r\n")
            st1 tx
        | .ok fid idText =>
          let st2 : SState :=
            { st1 with store := dset st1.store k (.stream (dset (entriesOf st1 k) fid (buildFields fvs))) }
          .reply (encode_resp (.s idText)) st2 tx
    | _, _ => .crash st tx

/-- The XRANGE arm (main.py lines 704-752).  The normalized endpoints are
only parsed inside `compare_stream_ids`, entry by entry: a `+` or malformed
start raises on the first entry; a malformed end raises only when some
entry passes the start bound. -/
def cmdXRANGE (w : String) (rest : List String) (st : SState) (tx : TxState) : Outcome :=
  if (w :: rest).length < 4 then .reply (lc "-ERR wrong number of arguments\r\n") st tx
  else
    match rest.get? 0, rest.get? 1, rest.get? 2 with
    | some k, some sstr, some estr =>
      let es := entriesOf st k
      if es = [] then .reply (encode_resp (.arr [])) st tx
      else
        match normalize_range_id sstr.data true with
        | none => .crash st tx
        | some .plus => .crash st tx
        | some (.id sid) =>
          match normalize_range_id estr.data false with
          | some .plus =>
            .reply (encode_resp (.arr ((es.filter (fun e =>
              compare_stream_ids e.1 sid ≥ 0)).map entryRVal))) st tx
          | some (.id eid) =>
            .reply (encode_resp (.arr ((es.filter (fun e =>
              compare_stream_ids e.1 sid ≥ 0 ∧ compare_stream_ids e.1 eid ≤ 0)).map entryRVal))) st tx
          | none =>
            if es.any (fun e => compare_stream_ids e.1 sid ≥ 0) then .crash st tx
            else .reply (encode_resp (.arr [])) st tx
    | _, _, _ => .crash st tx

/-- The `BLOCK` prefix analysis of the XREAD arm (main.py lines 760-775):
the index where the stream arguments start, or `none` when
`XREAD BLOCK ...` has fewer than 6 words. -/
def xreadArgsStart (w : String) (rest : List String) : Option Nat :=
  match upper (rest.getD 0 "") with
  | "BLOCK" => if (w :: rest).length < 6 then none else some 3
  | _ => some 1

/-- The XREAD block timeout (main.py lines 768-775): `some none` without
BLOCK, `some (some ms)` for a parsed `BLOCK ms`, `none` when the timeout
does not parse as an integer. -/
def xreadBlock? (rest : List String) : Option (Option Int) :=
  if upper (rest.getD 0 "") = "BLOCK" then
    match parseInt? ((rest.getD 1 "").data) with
    | none => none
    | some bt => some (some bt)
  else some none

/-- The XREAD arm (main.py lines 755-862). -/
def cmdXREAD (w : String) (rest : List String) (st : SState) (tx : TxState) : Outcome :=
  if (w :: rest).length < 4 then .reply (lc "-ERR wrong number of arguments\r\n") st tx
  else
    match xreadArgsStart w rest with
    | none => .reply (lc "-ERR wrong number of arguments\r\n") st tx
    | some argsStart =>
      match xreadBlock? rest with
      | none => .reply (lc "-ERR timeout is not an integer or out of range\r\n") st tx
      | some block? =>
        match ((w :: rest).drop argsStart).findIdx? (fun s2 => upper s2 = "STREAMS") with
        | none => .reply (lc "-ERR syntax error\r\n") st tx
        | some j =>
          let remaining := (w :: rest).drop (argsStart + j + 1)
          if remaining.length % 2 ≠ 0 then
            .reply (lc "-ERR wrong number of arguments\r\n") st tx
          else
            let num := remaining.length / 2
            match xreadCollect st (remaining.take num) (remaining.drop num) with
            | none => .crash st tx
            | some result =>
              if result.isEmpty = false ∨ block? = none then
                .reply (encode_resp (.arr result)) st tx
              else .blocked st tx

/-- `handle_command` (main.py lines 394-865): dispatch one decoded command
for a connection whose transaction state is `tx`, against the global tables
`st`, at wall-clock time `now` (milliseconds).  Each `elif` arm of the
Python function is one of the `cmd…` definitions above. -/
def handle_command (now : Nat) (parts : List String) (st : SState) (tx : TxState) : Outcome :=
  match parts with
  | [] => .noReply st tx
  | w :: rest =>
    match upper w with
    | "PING" => .reply (lc "+PONG\r\n") st tx
    | "ECHO" => cmdECHO rest st tx
    | "MULTI" => cmdMULTI st tx
    | "EXEC" => cmdEXEC now st tx
    | "DISCARD" => cmdDISCARD st tx
    | "SET" => cmdSET now w rest st tx
    | "GET" => cmdGET now w rest st tx
    | "INCR" => cmdINCR now w rest st tx
    | "RPUSH" => cmdRPUSH rest st tx
    | "LPUSH" => cmdLPUSH rest st tx
    | "LPOP" => cmdLPOP rest st tx
    | "BLPOP" => cmdBLPOP w rest st tx
    | "LRANGE" => cmdLRANGE rest st tx
    | "LLEN" => cmdLLEN rest st tx
    | "TYPE" => cmdTYPE rest st tx
    | "XADD" => cmdXADD now w rest st tx
    | "XRANGE" => cmdXRANGE w rest st tx
    | "XREAD" => cmdXREAD w rest st tx
    | _ => .reply (lc "-ERR unknown command\r\n") st tx

/-! ## Specification-side helper definitions -/

/-- The CRLF-split line structure of an encoded array of bulk strings:
one `$<len>` header line and one payload line per element. -/
def bulkLines : List String → List (List Char)
  | [] => []
  | s :: r => ('$' :: natDigits s.length) :: s.data :: bulkLines r

/-- Strict order on parsed stream entry IDs (`(ms, seq)` lexicographic). -/
def idLt (a b : Nat × Nat) : Prop := a.1 < b.1 ∨ (a.1 = b.1 ∧ a.2 < b.2)

instance (a b : Nat × Nat) : Decidable (idLt a b) := by
  unfold idLt
  infer_instance

/-- The commands that the dispatcher runs immediately even while the
connection is in MULTI (every implemented command except MULTI, EXEC,
DISCARD, SET, GET, INCR — plus DEL, which is not implemented at all). -/
def nonTxCommands : List String :=
  ["RPUSH", "LPUSH", "LPOP", "LRANGE", "LLEN", "XADD", "XRANGE", "XREAD", "DEL", "TYPE"]

/-- A dispatch outcome that left the transaction queue exactly as it was and
whose reply (if any) is not `+QUEUED` (no reply of these arms starts with
`+`). -/
def txSafe (o : Outcome) (tx : TxState) : Prop :=
  o.txOf = tx ∧ ∀ b, o.bytesOf = some b → b.head? ≠ some '+'

/-! ## Lemmas about decimal printing and parsing -/

theorem natDigitsAux_shift : ∀ n fuel acc, n < fuel →
    natDigitsAux fuel n acc = natDigitsAux (n + 1) n [] ++ acc := by
  intro n
  induction n using Nat.strong_induction_on with
  | _ n ih =>
    intro fuel acc hf
    cases fuel with
    | zero => omega
    | succ f =>
      by_cases h10 : n < 10
      · simp [natDigitsAux, h10]
      · have hdiv : n / 10 < n := Nat.div_lt_self (by omega) (by omega)
        have e1 : natDigitsAux (f + 1) n acc
            = natDigitsAux f (n / 10) (Char.ofNat (48 + n % 10) :: acc) := by
          simp [natDigitsAux, h10]
        have e2 : natDigitsAux (n + 1) n []
            = natDigitsAux n (n / 10) [Char.ofNat (48 + n % 10)] := by
          simp [natDigitsAux, h10]
        rw [e1, e2, ih (n / 10) hdiv f _ (by omega), ih (n / 10) hdiv n _ hdiv]
        simp

theorem natDigits_lt10 (n : Nat) (h : n < 10) : natDigits n = [Char.ofNat (48 + n)] := by
  simp [natDigits, natDigitsAux, h]

theorem natDigits_ge10 (n : Nat) (h : 10 ≤ n) :
    natDigits n = natDigits (n / 10) ++ [Char.ofNat (48 + n % 10)] := by
  have h10 : ¬ n < 10 := by omega
  have e2 : natDigits n = natDigitsAux n (n / 10) [Char.ofNat (48 + n % 10)] := by
    simp [natDigits, natDigitsAux, h10]
  rw [e2, natDigitsAux_shift (n / 10) n _ (Nat.div_lt_self (by omega) (by omega))]
  rfl

theorem digitChar_isDigit (d : Nat) (h : d < 10) : (Char.ofNat (48 + d)).isDigit = true := by
  interval_cases d <;> decide

theorem digitChar_toNat (d : Nat) (h : d < 10) : (Char.ofNat (48 + d)).toNat = 48 + d := by
  interval_cases d <;> decide

theorem natDigits_all_digit : ∀ n, ∀ c ∈ natDigits n, c.isDigit = true := by
  intro n
  induction n using Nat.strong_induction_on with
  | _ n ih =>
    by_cases h10 : n < 10
    · rw [natDigits_lt10 n h10]
      intro c hc
      simp only [List.mem_singleton] at hc
      subst hc
      exact digitChar_isDigit n h10
    · rw [natDigits_ge10 n (by omega)]
      intro c hc
      rcases List.mem_append.mp hc with h | h
      · exact ih (n / 10) (Nat.div_lt_self (by omega) (by omega)) c h
      · simp only [List.mem_singleton] at h
        subst h
        exact digitChar_isDigit (n % 10) (Nat.mod_lt _ (by omega))

theorem natDigits_ne_nil (n : Nat) : natDigits n ≠ [] := by
  by_cases h10 : n < 10
  · rw [natDigits_lt10 n h10]; simp
  · rw [natDigits_ge10 n (by omega)]; simp

theorem natDigits_foldl : ∀ n a, (natDigits n).foldl (fun x c => x * 10 + (c.toNat - 48)) a
    = a * 10 ^ (natDigits n).length + n := by
  intro n
  induction n using Nat.strong_induction_on with
  | _ n ih =>
    intro a
    by_cases h10 : n < 10
    · rw [natDigits_lt10 n h10]
      simp [List.foldl, digitChar_toNat n h10]
    · have hdiv : n / 10 < n := Nat.div_lt_self (by omega) (by omega)
      rw [natDigits_ge10 n (by omega), List.foldl_append, ih (n / 10) hdiv a]
      have hmod := Nat.div_add_mod n 10
      simp [List.foldl, digitChar_toNat (n % 10) (Nat.mod_lt _ (by omega)), pow_succ]
      ring_nf
      omega

theorem parseNat?_natDigits (n : Nat) : parseNat? (natDigits n) = some n := by
  have hall : (natDigits n).all Char.isDigit = true := by
    rw [List.all_eq_true]
    intro c hc
    exact natDigits_all_digit n c hc
  unfold parseNat?
  rw [if_neg (natDigits_ne_nil n)]
  simp only [hall, if_true]
  rw [natDigits_foldl n 0]
  simp

theorem isDigit_ne (c x : Char) (h : c.isDigit = true) (hx : x.isDigit = false) : c ≠ x := by
  intro e
  subst e
  rw [h] at hx
  cases hx

theorem natDigits_head_digit (n : Nat) :
    ∃ c rest, natDigits n = c :: rest ∧ c.isDigit = true := by
  cases hd : natDigits n with
  | nil => exact absurd hd (natDigits_ne_nil n)
  | cons c rest =>
    exact ⟨c, rest, rfl, natDigits_all_digit n c (hd ▸ List.mem_cons_self c rest)⟩

theorem parseInt?_natDigits (n : Nat) : parseInt? (natDigits n) = some (n : Int) := by
  obtain ⟨c, rest, hd, hc⟩ := natDigits_head_digit n
  unfold parseInt?
  rw [hd]
  have : ¬ ((c :: rest).head? = some '-') := by
    simp only [List.head?_cons, Option.some.injEq]
    exact isDigit_ne c '-' hc (by decide)
  rw [if_neg this, ← hd, parseNat?_natDigits]
  rfl

/-! ## Lemmas about the CRLF / dash splitters -/

theorem hasCRLF_eq_false_of_no_cr : ∀ l : List Char, (∀ c ∈ l, c ≠ '\r') → hasCRLF l = false := by
  intro l
  induction l with
  | nil => intro _; rfl
  | cons c1 t ih =>
    intro h
    cases t with
    | nil => rfl
    | cons c2 t2 =>
      have h1 : c1 ≠ '\r' := h c1 (List.mem_cons_self _ _)
      have h2 : ∀ c ∈ c2 :: t2, c ≠ '\r' := fun c hc => h c (List.mem_cons_of_mem _ hc)
      simp only [hasCRLF, ih h2, Bool.or_false, decide_eq_false_iff_not]
      intro ⟨e1, _⟩
      exact h1 e1

theorem splitCRLF_append (b : List Char) :
    ∀ a, hasCRLF a = false → splitCRLF (a ++ '\r' :: '\n' :: b) = a :: splitCRLF b := by
  intro a
  induction a with
  | nil => simp [splitCRLF]
  | cons c1 t ih =>
    intro h
    cases t with
    | nil =>
      have hc : ¬ (c1 = '\r' ∧ '\r' = '\n') := by
        intro ⟨_, e⟩
        exact absurd e (by decide)
      simp [splitCRLF, hc, consHead]
    | cons c2 t2 =>
      have hsplit : (decide (c1 = '\r' ∧ c2 = '\n') || hasCRLF (c2 :: t2)) = false := h
      have h1 : ¬ (c1 = '\r' ∧ c2 = '\n') := by
        rcases Bool.or_eq_false_iff.mp hsplit with ⟨hl, _⟩
        exact of_decide_eq_false hl
      have h2 : hasCRLF (c2 :: t2) = false :=
        (Bool.or_eq_false_iff.mp hsplit).2
      have e1 : splitCRLF (c1 :: c2 :: (t2 ++ '\r' :: '\n' :: b))
          = consHead c1 (splitCRLF (c2 :: (t2 ++ '\r' :: '\n' :: b))) := by
        simp [splitCRLF, h1]
      simp only [List.cons_append] at *
      rw [e1, ih h2]
      rfl

theorem splitDash_sepFree : ∀ a : List Char, (∀ c ∈ a, c ≠ '-') → splitDash a = [a] := by
  intro a
  induction a with
  | nil => intro _; rfl
  | cons c t ih =>
    intro h
    have hc : c ≠ '-' := h c (List.mem_cons_self _ _)
    have ht : ∀ x ∈ t, x ≠ '-' := fun x hx => h x (List.mem_cons_of_mem _ hx)
    simp [splitDash, hc, ih ht, consHead]

theorem splitDash_append (b : List Char) :
    ∀ a, (∀ c ∈ a, c ≠ '-') → splitDash (a ++ '-' :: b) = a :: splitDash b := by
  intro a
  induction a with
  | nil => simp [splitDash]
  | cons c t ih =>
    intro h
    have hc : c ≠ '-' := h c (List.mem_cons_self _ _)
    have ht : ∀ x ∈ t, x ≠ '-' := fun x hx => h x (List.mem_cons_of_mem _ hx)
    simp only [List.cons_append, splitDash, hc, if_false, List.append_eq, ih ht]
    rfl

/-! ## Lemmas about the dict model -/

theorem dlookup_eq_none_of_not_mem {α : Type} :
    ∀ (m : List (String × α)) (k : String), k ∉ m.map Prod.fst → dlookup m k = none := by
  intro m
  induction m with
  | nil => intro k _; rfl
  | cons e r ih =>
    intro k hk
    obtain ⟨k1, v1⟩ := e
    simp only [List.map_cons, List.mem_cons] at hk
    push_neg at hk
    have hne : k1 ≠ k := fun e1 => hk.1 e1.symm
    simp only [dlookup, if_neg hne]
    exact ih k hk.2

theorem dlookup_derase_self {α : Type} :
    ∀ (m : List (String × α)) (k : String), (m.map Prod.fst).Nodup →
      dlookup (derase m k) k = none := by
  intro m
  induction m with
  | nil => intro k _; rfl
  | cons e r ih =>
    intro k hnd
    obtain ⟨k1, v1⟩ := e
    simp only [List.map_cons, List.nodup_cons] at hnd
    by_cases hk : k1 = k
    · subst hk
      simp only [derase, if_pos rfl]
      exact dlookup_eq_none_of_not_mem r k1 hnd.1
    · simp only [derase, if_neg hk, dlookup, if_neg hk]
      exact ih k hnd.2

theorem dset_fresh {κ α : Type} [DecidableEq κ] :
    ∀ (m : List (κ × α)) (k : κ) (v : α), (∀ e ∈ m, e.1 ≠ k) →
      dset m k v = m ++ [(k, v)] := by
  intro m
  induction m with
  | nil => intro k v _; rfl
  | cons e r ih =>
    intro k v h
    obtain ⟨k1, v1⟩ := e
    have h1 : k1 ≠ k := h (k1, v1) (List.mem_cons_self _ _)
    simp only [dset, if_neg h1, List.cons_append]
    rw [ih k v (fun x hx => h x (List.mem_cons_of_mem _ hx))]

/-! ## The RESP round-trip -/

theorem string_mk_data (s : String) : String.mk s.data = s := by
  cases s
  rfl

theorem hasCRLF_eq_false_of_digits (pre : Char) (hpre : pre ≠ '\r') (n : Nat) :
    hasCRLF (pre :: natDigits n) = false := by
  apply hasCRLF_eq_false_of_no_cr
  intro c hc
  rcases List.mem_cons.mp hc with h | h
  · subst h; exact hpre
  · exact isDigit_ne c '\r' (natDigits_all_digit n c h) (by decide)

theorem splitCRLF_encodeItems :
    ∀ frame : List String, (∀ s ∈ frame, hasCRLF s.data = false) →
      splitCRLF (encodeItems (frame.map RVal.s)) = bulkLines frame ++ [[]] := by
  intro frame
  induction frame with
  | nil => intro _; rfl
  | cons s r ih =>
    intro h
    have hs : hasCRLF s.data = false := h s (List.mem_cons_self _ _)
    have hr : ∀ x ∈ r, hasCRLF x.data = false := fun x hx => h x (List.mem_cons_of_mem _ hx)
    have e1 : encodeItems ((s :: r).map RVal.s)
        = ('$' :: natDigits s.length) ++ '\r' :: '\n' :: (s.data ++ '\r' :: '\n' :: encodeItems (r.map RVal.s)) := by
      simp [encodeItems, encode_resp]
    rw [e1, splitCRLF_append _ _ (hasCRLF_eq_false_of_digits '$' (by decide) _),
      splitCRLF_append _ _ hs, ih hr]
    rfl

theorem parseBulks_bulkLines :
    ∀ frame : List String, ∀ extra : List (List Char),
      parseBulks frame.length (bulkLines frame ++ extra) = some (frame, extra) := by
  intro frame
  induction frame with
  | nil => intro extra; rfl
  | cons s r ih =>
    intro extra
    have hhead : (('$' :: natDigits s.length) : List Char).head? = some '$' := rfl
    simp only [List.length_cons, bulkLines, List.cons_append, parseBulks, hhead, if_pos rfl,
      List.drop_one, List.tail_cons, parseInt?_natDigits, ih extra, string_mk_data, if_true]

/-- C10 (amended): encode∘decode is the identity on array-of-bulk-string
frames whose payloads do not contain the CRLF sequence; the decoder consumes
exactly the produced bytes.  (For payloads containing `\r\n` the identity
fails, see the counterexample: `parse_resp` splits the whole buffer on CRLF,
payload bytes included.) -/
theorem C10_encode_decode_identity (frame : List String) (h : ∀ s ∈ frame, hasCRLF s.data = false) :
    parse_resp (encode_resp (.arr (frame.map RVal.s))) = (some frame, []) := by
  have e1 : encode_resp (.arr (frame.map RVal.s))
      = ('*' :: natDigits frame.length) ++ '\r' :: '\n' :: encodeItems (frame.map RVal.s) := by
    simp [encode_resp]
  have e2 : splitCRLF (encode_resp (.arr (frame.map RVal.s)))
      = ('*' :: natDigits frame.length) :: (bulkLines frame ++ [[]]) := by
    rw [e1, splitCRLF_append _ _ (hasCRLF_eq_false_of_digits '*' (by decide) _),
      splitCRLF_encodeItems frame h]
  have hne : encode_resp (.arr (frame.map RVal.s)) ≠ [] := by
    rw [e1]; simp
  have hstar : (encode_resp (.arr (frame.map RVal.s))).head? = some '*' := by
    rw [e1]; rfl
  unfold parse_resp
  rw [if_neg hne, if_pos hstar, e2]
  simp only [List.drop_one, List.tail_cons, parseInt?_natDigits, Int.toNat_ofNat,
    parseBulks_bulkLines frame [[]]]
  rfl

/-- C10 witness: a concrete CRLF-free frame round-trips. -/
theorem C10_witness :
    (∀ s ∈ (["SET", "foo", "bar"] : List String), hasCRLF s.data = false)
    ∧ parse_resp (encode_resp (.arr (["SET", "foo", "bar"].map RVal.s)))
        = (some ["SET", "foo", "bar"], []) :=
  ⟨by decide, C10_encode_decode_identity ["SET", "foo", "bar"] (by decide)⟩

/-- C10 counterexample: a payload containing `\r\n` does not round-trip — the
decoder splits inside the payload, yields a different frame and leaves bytes
unconsumed. -/
theorem C10_counterexample :
    parse_resp (encode_resp (.arr [RVal.s "a\r\nb"])) = (some ["a"], lc "b\r\n")
    ∧ (some ["a"] : Option (List String)) ≠ some ["a\r\nb"]
    ∧ lc "b\r\n" ≠ [] :=
  ⟨rfl, by decide, by decide⟩

/-! ## C1: DEL -/

/-- C1 (amended): DEL is not implemented.  Dispatching `DEL key...` with any
argument list, keyspace and transaction state falls through to the final
`else` of `handle_command`: the reply is exactly `-ERR unknown command` and
the keyspace and queue are untouched. -/
theorem C1_del_is_unknown_command (now : Nat) (ks : List String) (st : SState) (tx : TxState) :
    handle_command now ("DEL" :: ks) st tx = .reply (lc "-ERR unknown command\r\n") st tx := rfl

/-- C1 counterexample: with `k` present, `DEL k` replies the unknown-command
error (the claim says it never does) and `k` is still present afterwards. -/
theorem C1_counterexample :
    handle_command 0 ["DEL", "k"] ⟨[("k", .str "v")], []⟩ none
      = .reply (lc "-ERR unknown command\r\n") ⟨[("k", .str "v")], []⟩ none
    ∧ dlookup (handle_command 0 ["DEL", "k"] ⟨[("k", .str "v")], []⟩ none).stOf.store "k"
        = some (.str "v")
    ∧ (handle_command 0 ["DEL", "k"] ⟨[("k", .str "v")], []⟩ none).bytesOf ≠ some (lc ":1\r\n") :=
  ⟨rfl, rfl, by decide⟩

/-! ## C4: arity errors -/

/-- C4 (amended): a known command dispatched with too few arguments (GET with
no key, SET with only a key) raises an uncaught `IndexError` inside
`handle_command`: no reply at all is sent (in particular not the
`-ERR wrong number of arguments` reply), the keyspace is unchanged, and
`client_thread` breaks out of its loop and closes the connection. -/
theorem C4_arity_error_crashes_connection (now : Nat) (st : SState) (k : String) :
    handle_command now ["GET"] st none = .crash st none
    ∧ handle_command now ["SET", k] st none = .crash st none
    ∧ client_closes (handle_command now ["GET"] st none) = true
    ∧ (handle_command now ["GET"] st none).bytesOf = none :=
  ⟨rfl, rfl, rfl, rfl⟩

/-- C4 counterexample: `GET` with no key sends nothing (so in particular not
the claimed arity-error reply) and the connection is closed, not kept open. -/
theorem C4_counterexample :
    handle_command 0 ["GET"] ⟨[("a", .str "b")], []⟩ none = .crash ⟨[("a", .str "b")], []⟩ none
    ∧ (handle_command 0 ["GET"] ⟨[("a", .str "b")], []⟩ none).bytesOf = none
    ∧ (none : Option (List Char)) ≠ some (lc "-ERR wrong number of arguments for 'get' command\r\n")
    ∧ client_closes (handle_command 0 ["GET"] ⟨[("a", .str "b")], []⟩ none) = true :=
  ⟨rfl, rfl, by decide, rfl⟩

/-! ## C9: BLPOP timeout reply -/

/-- C9 (amended): a BLPOP whose finite positive timeout elapses with every
listed key empty or absent replies the null **array** `*-1\r\n` (not the
null bulk string `$-1\r\n`) and leaves the keyspace unchanged.  The
busy-wait loop is read sequentially: with no concurrent writer the store
does not change while it spins. -/
theorem C9_blpop_timeout_replies_null_array (now : Nat) (st : SState) (tx : TxState)
    (keys : List String) (tstr : String) (t : Rat)
    (hp : parseFloat? tstr.data = some t) (h0 : 0 < t)
    (hempty : ∀ k1 ∈ keys, blpopReady st k1 = false) :
    handle_command now ("BLPOP" :: keys ++ [tstr]) st tx = .reply (lc "*-1\r\n") st tx := by
  have e0 : handle_command now ("BLPOP" :: keys ++ [tstr]) st tx
      = cmdBLPOP "BLPOP" (keys ++ [tstr]) st tx := rfl
  rw [e0]
  simp only [cmdBLPOP, List.dropLast_concat, List.getLastD_concat, hp]
  rw [if_neg (by exact fun e => absurd (e ▸ h0) (lt_irrefl 0)),
    if_neg (not_lt.mpr (le_of_lt h0))]
  have hfind : keys.find? (fun k1 => blpopReady st k1) = none := by
    rw [List.find?_eq_none]
    intro x hx
    simp [hempty x hx]
  rw [hfind]

/-- C9 witness: BLPOP q 1 on an empty keyspace. -/
theorem C9_witness :
    parseFloat? ("1" : String).data = some 1 ∧ (0 : Rat) < 1
    ∧ (∀ k1 ∈ (["q"] : List String), blpopReady ⟨[], []⟩ k1 = false)
    ∧ handle_command 0 ["BLPOP", "q", "1"] ⟨[], []⟩ none = .reply (lc "*-1\r\n") ⟨[], []⟩ none :=
  ⟨by decide, by decide, by decide,
    C9_blpop_timeout_replies_null_array 0 ⟨[], []⟩ none ["q"] "1" 1 (by decide) (by decide)
      (by decide)⟩

/-- C9 counterexample: the timeout reply for `BLPOP q 1` on an empty
keyspace is `*-1\r\n`, which differs from the `$-1\r\n` the claim states. -/
theorem C9_counterexample :
    handle_command 0 ["BLPOP", "q", "1"] ⟨[], []⟩ none = .reply (lc "*-1\r\n") ⟨[], []⟩ none
    ∧ lc "*-1\r\n" ≠ lc "$-1\r\n" :=
  ⟨rfl, by decide⟩

/-! ## C3: EXEC reply shape -/

/-- C3 (amended): EXEC replies one RESP array with exactly one element per
queued command, each element being `encode_resp` of that command's
individual result.  A successful SET contributes the **bulk** string `OK`
(`$2\r\nOK\r\n`, not the simple string `+OK`), a successful INCR contributes
an integer, and a failing command contributes a **bulk** string carrying the
error text (not a RESP error value).  The E5 session
MULTI; SET k 1; INCR k; EXEC therefore ends with the wire reply
`*2\r\n$2\r\nOK\r\n:2\r\n`. -/
theorem C3_exec_reply_array :
    (∀ now st q, handle_command now ["EXEC"] st (some q)
        = .reply (encode_resp (.arr (execAll now st q).2)) (execAll now st q).1 none)
    ∧ (∀ now st q, (execAll now st q).2.length = q.length)
    ∧ (let o1 := handle_command 0 ["MULTI"] ⟨[], []⟩ none
       let o2 := handle_command 0 ["SET", "k", "1"] o1.stOf o1.txOf
       let o3 := handle_command 0 ["INCR", "k"] o2.stOf o2.txOf
       let o4 := handle_command 0 ["EXEC"] o3.stOf o3.txOf
       o1.bytesOf = some (lc "+OK\r\n") ∧ o2.bytesOf = some (lc "+QUEUED\r\n")
       ∧ o3.bytesOf = some (lc "+QUEUED\r\n")
       ∧ o4.bytesOf = some (lc "*2\r\n$2\r\nOK\r\n:2\r\n")) := by
  refine ⟨fun now st q => rfl, fun now st q => ?_, rfl, rfl, rfl, rfl⟩
  induction q generalizing st with
  | nil => rfl
  | cons c cs ih => simp [execAll, ih]

/-- C3 counterexample: the E5 EXEC reply is `*2\r\n$2\r\nOK\r\n:2\r\n`, not
the `*2\r\n+OK\r\n:2\r\n` the claim states; and a failing INCR inside EXEC
contributes a bulk string (`$43\r\nERR ...`), not an embedded `-ERR` error
value. -/
theorem C3_counterexample :
    (let o1 := handle_command 0 ["MULTI"] ⟨[], []⟩ none
     let o2 := handle_command 0 ["SET", "k", "1"] o1.stOf o1.txOf
     let o3 := handle_command 0 ["INCR", "k"] o2.stOf o2.txOf
     (handle_command 0 ["EXEC"] o3.stOf o3.txOf).bytesOf
        = some (lc "*2\r\n$2\r\nOK\r\n:2\r\n"))
    ∧ lc "*2\r\n$2\r\nOK\r\n:2\r\n" ≠ lc "*2\r\n+OK\r\n:2\r\n"
    ∧ (handle_command 0 ["EXEC"] ⟨[("k", .str "x")], []⟩ (some [["INCR", "k"]])).bytesOf
        = some (lc "*1\r\n$43\r\nERR value is not an integer or out of range\r\n")
    ∧ lc "*1\r\n$43\r\nERR value is not an integer or out of range\r\n"
        ≠ lc "*1\r\n-ERR value is not an integer or out of range\r\n" :=
  ⟨rfl, by decide, rfl, by decide⟩

/-! ## C5: RPUSH / LPUSH on wrong-typed keys -/

theorem foldl_cons_rev (vs : List String) : ∀ cur, vs.foldl (fun acc v => v :: acc) cur
    = vs.reverse ++ cur := by
  induction vs with
  | nil => intro cur; rfl
  | cons v r ih => intro cur; simp [List.foldl, ih, List.reverse_cons]

/-- C5 (amended): RPUSH and LPUSH never reply WRONGTYPE.  On a key holding a
string or a stream they silently **overwrite** the stored value with a fresh
list containing exactly the pushed values and reply its length; on an absent
key they create the list as the claim states. -/
theorem C5_push_overwrites_wrong_type (now : Nat) (st : SState) (tx : TxState)
    (k : String) (vs : List String) :
    (∀ s0, dlookup st.store k = some (.str s0) →
        handle_command now ("RPUSH" :: k :: vs) st tx
          = .reply (encode_resp (.i (vs.length : Int)))
              { st with store := dset st.store k (.list vs) } tx)
    ∧ (∀ es, dlookup st.store k = some (.stream es) →
        handle_command now ("RPUSH" :: k :: vs) st tx
          = .reply (encode_resp (.i (vs.length : Int)))
              { st with store := dset st.store k (.list vs) } tx)
    ∧ (dlookup st.store k = none →
        handle_command now ("RPUSH" :: k :: vs) st tx
          = .reply (encode_resp (.i (vs.length : Int)))
              { st with store := dset st.store k (.list vs) } tx)
    ∧ (∀ s0, dlookup st.store k = some (.str s0) →
        handle_command now ("LPUSH" :: k :: vs) st tx
          = .reply (encode_resp (.i (vs.length : Int)))
              { st with store := dset st.store k (.list vs.reverse) } tx) := by
  have eR : handle_command now ("RPUSH" :: k :: vs) st tx = cmdRPUSH (k :: vs) st tx := rfl
  have eL : handle_command now ("LPUSH" :: k :: vs) st tx = cmdLPUSH (k :: vs) st tx := rfl
  refine ⟨fun s0 h => ?_, fun es h => ?_, fun h => ?_, fun s0 h => ?_⟩
  · rw [eR]; simp [cmdRPUSH, h]
  · rw [eR]; simp [cmdRPUSH, h]
  · rw [eR]; simp [cmdRPUSH, h]
  · rw [eL]; simp [cmdLPUSH, h, foldl_cons_rev]

/-- C5 witness: instantiating the theorem on string-, stream- and absent-key
states. -/
theorem C5_witness :
    (dlookup (SState.mk [("k", .str "v")] []).store "k" = some (.str "v")
      ∧ handle_command 0 ["RPUSH", "k", "x"] ⟨[("k", .str "v")], []⟩ none
          = .reply (encode_resp (.i 1)) ⟨[("k", .list ["x"])], []⟩ none)
    ∧ (dlookup (SState.mk [("s", .stream [((1, 1), [("f", "v")])])] []).store "s"
          = some (.stream [((1, 1), [("f", "v")])])
      ∧ handle_command 0 ["RPUSH", "s", "x"] ⟨[("s", .stream [((1, 1), [("f", "v")])])], []⟩ none
          = .reply (encode_resp (.i 1)) ⟨[("s", .list ["x"])], []⟩ none)
    ∧ handle_command 0 ["LPUSH", "k", "x", "y"] ⟨[("k", .str "v")], []⟩ none
        = .reply (encode_resp (.i 2)) ⟨[("k", .list ["y", "x"])], []⟩ none := by
  refine ⟨⟨rfl, ?_⟩, ⟨rfl, ?_⟩, ?_⟩
  · exact (C5_push_overwrites_wrong_type 0 ⟨[("k", .str "v")], []⟩ none "k" ["x"]).1 "v" rfl
  · exact (C5_push_overwrites_wrong_type 0 ⟨[("s", .stream [((1, 1), [("f", "v")])])], []⟩ none
      "s" ["x"]).2.1 [((1, 1), [("f", "v")])] rfl
  · exact (C5_push_overwrites_wrong_type 0 ⟨[("k", .str "v")], []⟩ none "k" ["x", "y"]).2.2.2
      "v" rfl

/-- C5 counterexample: RPUSH on a key holding a string replies `:1` (not
WRONGTYPE) and replaces the stored string with the fresh list. -/
theorem C5_counterexample :
    handle_command 0 ["RPUSH", "k", "x"] ⟨[("k", .str "v")], []⟩ none
      = .reply (lc ":1\r\n") ⟨[("k", .list ["x"])], []⟩ none
    ∧ lc ":1\r\n" ≠ lc "-WRONGTYPE Operation against a key holding the wrong kind of value\r\n"
    ∧ (some (Val.list ["x"]) : Option Val) ≠ some (.str "v") :=
  ⟨rfl, by decide, by decide⟩

/-! ## C6: lazy expiration -/

/-- C6 (amended): only GET (and INCR) perform lazy expiry.  GET on a key
with a passed deadline replies null and deletes the key from both tables.
TYPE and LLEN never consult the expiry table: TYPE replies the stored
type (as a bulk string) and LLEN replies the list length (0 for a
non-list), in both cases leaving the expired key stored. -/
theorem C6_lazy_expiry_observers :
    (∀ (now : Nat) (st : SState) (k : String) (dl : Int) (v : Val),
        dlookup st.expiry k = some dl → (now : Int) > dl → dlookup st.store k = some v →
        (st.store.map Prod.fst).Nodup →
        handle_command now ["GET", k] st none
            = .reply (lc "$-1\r\n") ⟨derase st.store k, derase st.expiry k⟩ none
          ∧ dlookup (derase st.store k) k = none)
    ∧ (∀ (now : Nat) (st : SState) (k : String) (v : Val),
        dlookup st.store k = some v →
        handle_command now ["TYPE", k] st none = .reply (encode_resp (.s (typeName v))) st none)
    ∧ (∀ (now : Nat) (st : SState) (k : String) (s0 : String),
        dlookup st.store k = some (.str s0) →
        handle_command now ["LLEN", k] st none = .reply (encode_resp (.i 0)) st none) := by
  refine ⟨fun now st k dl v h1 h2 h3 hnd => ?_, fun now st k v h => ?_, fun now st k s0 h => ?_⟩
  · have e0 : handle_command now ["GET", k] st none = cmdGET now "GET" [k] st none := rfl
    have hcheck : expiredCheck st now k = true := by
      simp [expiredCheck, h1, h2]
    refine ⟨?_, dlookup_derase_self st.store k hnd⟩
    rw [e0]
    simp [cmdGET, hcheck, h3]
  · have e0 : handle_command now ["TYPE", k] st none = cmdTYPE [k] st none := rfl
    rw [e0]
    simp [cmdTYPE, h]
  · have e0 : handle_command now ["LLEN", k] st none = cmdLLEN [k] st none := rfl
    rw [e0]
    simp [cmdLLEN, h]

/-- C6 witness: a string key expired at 5, observed at 10. -/
theorem C6_witness :
    (dlookup (SState.mk [("k", .str "v")] [("k", 5)]).expiry "k" = some 5
      ∧ ((10 : Nat) : Int) > 5
      ∧ handle_command 10 ["GET", "k"] ⟨[("k", .str "v")], [("k", 5)]⟩ none
          = .reply (lc "$-1\r\n") ⟨[], []⟩ none)
    ∧ handle_command 10 ["TYPE", "k"] ⟨[("k", .str "v")], [("k", 5)]⟩ none
        = .reply (encode_resp (.s "string")) ⟨[("k", .str "v")], [("k", 5)]⟩ none
    ∧ handle_command 10 ["LLEN", "k"] ⟨[("k", .str "v")], [("k", 5)]⟩ none
        = .reply (encode_resp (.i 0)) ⟨[("k", .str "v")], [("k", 5)]⟩ none := by
  refine ⟨⟨rfl, by decide, ?_⟩, ?_, ?_⟩
  · exact (C6_lazy_expiry_observers.1 10 ⟨[("k", .str "v")], [("k", 5)]⟩ "k" 5 (.str "v")
      rfl (by decide) rfl (by decide)).1
  · exact C6_lazy_expiry_observers.2.1 10 ⟨[("k", .str "v")], [("k", 5)]⟩ "k" (.str "v") rfl
  · exact C6_lazy_expiry_observers.2.2 10 ⟨[("k", .str "v")], [("k", 5)]⟩ "k" "v" rfl

/-- C6 counterexample: TYPE on a key whose deadline (5) has passed (now 10)
replies the bulk string `string` — not `+none` — and the key stays stored,
expiry entry included. -/
theorem C6_counterexample :
    handle_command 10 ["TYPE", "k"] ⟨[("k", .str "v")], [("k", 5)]⟩ none
      = .reply (lc "$6\r\nstring\r\n") ⟨[("k", .str "v")], [("k", 5)]⟩ none
    ∧ lc "$6\r\nstring\r\n" ≠ lc "+none\r\n"
    ∧ dlookup (handle_command 10 ["TYPE", "k"] ⟨[("k", .str "v")], [("k", 5)]⟩ none).stOf.store "k"
        = some (.str "v") :=
  ⟨rfl, by decide, rfl⟩

/-! ## C7: SET and prior expiry -/

/-- C7 (amended): SET without PX does **not** clear a previously set expiry
deadline — the expiry table is left untouched — so a GET at a time past the
old deadline treats the key as expired, deletes it and returns null instead
of the new value.  With PX the deadline becomes now + ms. -/
theorem C7_set_without_px_keeps_old_expiry :
    (∀ (now : Nat) (st : SState) (k v : String),
        handle_command now ["SET", k, v] st none
          = .reply (lc "+OK\r\n") { st with store := dset st.store k (.str v) } none)
    ∧ (∀ (now : Nat) (st : SState) (k v m : String) (px : Int),
        parseInt? m.data = some px →
        handle_command now ["SET", k, v, "PX", m] st none
          = .reply (lc "+OK\r\n")
              ⟨dset st.store k (.str v), dset st.expiry k ((now : Int) + px)⟩ none)
    ∧ (∀ (now2 : Nat) (st : SState) (k : String) (dl : Int) (v : Val),
        dlookup st.expiry k = some dl → (now2 : Int) > dl → dlookup st.store k = some v →
        handle_command now2 ["GET", k] st none
          = .reply (lc "$-1\r\n") ⟨derase st.store k, derase st.expiry k⟩ none) := by
  refine ⟨fun now st k v => rfl, fun now st k v m px hp => ?_,
    fun now2 st k dl v h1 h2 h3 => ?_⟩
  · have e0 : handle_command now ["SET", k, v, "PX", m] st none
        = cmdSET now "SET" [k, v, "PX", m] st none := rfl
    rw [e0]
    simp [cmdSET, hp, show upper "PX" = "PX" from rfl]
  · have e0 : handle_command now2 ["GET", k] st none = cmdGET now2 "GET" [k] st none := rfl
    have hcheck : expiredCheck st now2 k = true := by
      simp [expiredCheck, h1, h2]
    rw [e0]
    simp [cmdGET, hcheck, h3]

/-- C7 witness: instantiating the PX and expired-GET clauses. -/
theorem C7_witness :
    parseInt? ("7" : String).data = some 7
    ∧ handle_command 3 ["SET", "k", "v", "PX", "7"] ⟨[], []⟩ none
        = .reply (lc "+OK\r\n") ⟨[("k", .str "v")], [("k", 10)]⟩ none
    ∧ handle_command 11 ["GET", "k"] ⟨[("k", .str "v")], [("k", 10)]⟩ none
        = .reply (lc "$-1\r\n") ⟨[], []⟩ none := by
  refine ⟨by decide, ?_, ?_⟩
  · exact C7_set_without_px_keeps_old_expiry.2.1 3 ⟨[], []⟩ "k" "v" "7" 7 (by decide)
  · exact C7_set_without_px_keeps_old_expiry.2.2 11 ⟨[("k", .str "v")], [("k", 10)]⟩ "k" 10
      (.str "v") rfl (by decide) rfl

/-- C7 counterexample: after `SET k a PX 0` (deadline 0), a plain
`SET k b` at time 3 leaves the stale deadline in the expiry table, and the
`GET k` at time 10 returns null — not the new value `b` — deleting the key. -/
theorem C7_counterexample :
    handle_command 3 ["SET", "k", "b"] ⟨[("k", .str "a")], [("k", 0)]⟩ none
      = .reply (lc "+OK\r\n") ⟨[("k", .str "b")], [("k", 0)]⟩ none
    ∧ handle_command 10 ["GET", "k"] ⟨[("k", .str "b")], [("k", 0)]⟩ none
        = .reply (lc "$-1\r\n") ⟨[], []⟩ none
    ∧ lc "$-1\r\n" ≠ encode_resp (.s "b") :=
  ⟨rfl, rfl, by decide⟩

/-! ## C2: dispatch while in MULTI -/

theorem encode_resp_head_ne_plus (v : RVal) : (encode_resp v).head? ≠ some '+' := by
  cases v <;> simp [encode_resp, lc] <;> decide

theorem txSafe_reply (b : List Char) (st : SState) (tx : TxState) (hb : b.head? ≠ some '+') :
    txSafe (.reply b st tx) tx := by
  refine ⟨rfl, fun b1 h => ?_⟩
  simp only [Outcome.bytesOf, Option.some.injEq] at h
  subst h
  exact hb

theorem txSafe_crash (st : SState) (tx : TxState) : txSafe (.crash st tx) tx := by
  exact ⟨rfl, fun b1 h => by simp [Outcome.bytesOf] at h⟩

theorem txSafe_blocked (st : SState) (tx : TxState) : txSafe (.blocked st tx) tx := by
  exact ⟨rfl, fun b1 h => by simp [Outcome.bytesOf] at h⟩

theorem cmdRPUSH_txSafe (rest : List String) (st : SState) (tx : TxState) :
    txSafe (cmdRPUSH rest st tx) tx := by
  unfold cmdRPUSH
  repeat' (first | split | dsimp only)
  all_goals first
    | exact txSafe_crash _ _
    | exact txSafe_blocked _ _
    | (apply txSafe_reply; first | exact encode_resp_head_ne_plus _ | decide)

theorem cmdLPUSH_txSafe (rest : List String) (st : SState) (tx : TxState) :
    txSafe (cmdLPUSH rest st tx) tx := by
  unfold cmdLPUSH
  repeat' (first | split | dsimp only)
  all_goals first
    | exact txSafe_crash _ _
    | exact txSafe_blocked _ _
    | (apply txSafe_reply; first | exact encode_resp_head_ne_plus _ | decide)

theorem cmdLPOP_txSafe (rest : List String) (st : SState) (tx : TxState) :
    txSafe (cmdLPOP rest st tx) tx := by
  unfold cmdLPOP
  repeat' (first | split | dsimp only)
  all_goals first
    | exact txSafe_crash _ _
    | exact txSafe_blocked _ _
    | (apply txSafe_reply; first | exact encode_resp_head_ne_plus _ | decide)

theorem cmdBLPOP_txSafe (w : String) (rest : List String) (st : SState) (tx : TxState) :
    txSafe (cmdBLPOP w rest st tx) tx := by
  unfold cmdBLPOP
  repeat' (first | split | dsimp only)
  all_goals first
    | exact txSafe_crash _ _
    | exact txSafe_blocked _ _
    | (apply txSafe_reply; first | exact encode_resp_head_ne_plus _ | decide)

theorem cmdLRANGE_txSafe (rest : List String) (st : SState) (tx : TxState) :
    txSafe (cmdLRANGE rest st tx) tx := by
  unfold cmdLRANGE
  repeat' (first | split | dsimp only)
  all_goals first
    | exact txSafe_crash _ _
    | exact txSafe_blocked _ _
    | (apply txSafe_reply; first | exact encode_resp_head_ne_plus _ | decide)

theorem cmdLLEN_txSafe (rest : List String) (st : SState) (tx : TxState) :
    txSafe (cmdLLEN rest st tx) tx := by
  unfold cmdLLEN
  repeat' (first | split | dsimp only)
  all_goals first
    | exact txSafe_crash _ _
    | exact txSafe_blocked _ _
    | (apply txSafe_reply; first | exact encode_resp_head_ne_plus _ | decide)

theorem cmdTYPE_txSafe (rest : List String) (st : SState) (tx : TxState) :
    txSafe (cmdTYPE rest st tx) tx := by
  unfold cmdTYPE
  repeat' (first | split | dsimp only)
  all_goals first
    | exact txSafe_crash _ _
    | exact txSafe_blocked _ _
    | (apply txSafe_reply; first | exact encode_resp_head_ne_plus _ | decide)

theorem cmdXADD_txSafe (now : Nat) (w : String) (rest : List String) (st : SState) (tx : TxState) :
    txSafe (cmdXADD now w rest st tx) tx := by
  unfold cmdXADD
  repeat' (first | split | dsimp only)
  all_goals first
    | exact txSafe_crash _ _
    | exact txSafe_blocked _ _
    | (apply txSafe_reply; first | exact encode_resp_head_ne_plus _ | decide)

theorem cmdXRANGE_txSafe (w : String) (rest : List String) (st : SState) (tx : TxState) :
    txSafe (cmdXRANGE w rest st tx) tx := by
  unfold cmdXRANGE
  repeat' (first | split | dsimp only)
  all_goals first
    | exact txSafe_crash _ _
    | exact txSafe_blocked _ _
    | (apply txSafe_reply; first | exact encode_resp_head_ne_plus _ | decide)

theorem cmdXREAD_txSafe (w : String) (rest : List String) (st : SState) (tx : TxState) :
    txSafe (cmdXREAD w rest st tx) tx := by
  unfold cmdXREAD
  repeat' (first | split | dsimp only)
  all_goals first
    | exact txSafe_crash _ _
    | exact txSafe_blocked _ _
    | (apply txSafe_reply; first | exact encode_resp_head_ne_plus _ | decide)

/-- C2 (amended): while a connection is in MULTI, **only** SET, GET and INCR
are appended verbatim to its queue with a `+QUEUED` reply and an unchanged
keyspace.  Every command of `nonTxCommands` (RPUSH, LPUSH, LPOP, LRANGE,
LLEN, XADD, XRANGE, XREAD, DEL, TYPE) ignores the transaction state
entirely: it executes with its normal immediate semantics (possibly
mutating the shared keyspace), leaves the queue unmodified, and never
replies `+QUEUED`. -/
theorem C2_multi_queues_only_set_get_incr :
    (∀ (now : Nat) (st : SState) (q : List (List String)) (args : List String),
        handle_command now ("SET" :: args) st (some q)
          = .reply (lc "+QUEUED\r\n") st (some (q ++ [("SET" :: args)])))
    ∧ (∀ (now : Nat) (st : SState) (q : List (List String)) (args : List String),
        handle_command now ("GET" :: args) st (some q)
          = .reply (lc "+QUEUED\r\n") st (some (q ++ [("GET" :: args)])))
    ∧ (∀ (now : Nat) (st : SState) (q : List (List String)) (args : List String),
        handle_command now ("INCR" :: args) st (some q)
          = .reply (lc "+QUEUED\r\n") st (some (q ++ [("INCR" :: args)])))
    ∧ (∀ c ∈ nonTxCommands, ∀ (now : Nat) (st : SState) (q : List (List String))
        (args : List String),
        txSafe (handle_command now (c :: args) st (some q)) (some q)) := by
  refine ⟨fun now st q args => rfl, fun now st q args => rfl, fun now st q args => rfl, ?_⟩
  intro c hc now st q args
  fin_cases hc
  · exact cmdRPUSH_txSafe args st (some q)
  · exact cmdLPUSH_txSafe args st (some q)
  · exact cmdLPOP_txSafe args st (some q)
  · exact cmdLRANGE_txSafe args st (some q)
  · exact cmdLLEN_txSafe args st (some q)
  · exact cmdXADD_txSafe now "XADD" args st (some q)
  · exact cmdXRANGE_txSafe "XRANGE" args st (some q)
  · exact cmdXREAD_txSafe "XREAD" args st (some q)
  · exact txSafe_reply _ _ _ (by decide)
  · exact cmdTYPE_txSafe args st (some q)

/-- C2 witness: queuing `SET a b` on an in-MULTI connection, and the
immediate execution of `RPUSH k x` on the same connection. -/
theorem C2_witness :
    handle_command 0 ["SET", "a", "b"] ⟨[], []⟩ (some [])
      = .reply (lc "+QUEUED\r\n") ⟨[], []⟩ (some [["SET", "a", "b"]])
    ∧ ("RPUSH" ∈ nonTxCommands
        ∧ txSafe (handle_command 0 ["RPUSH", "k", "x"] ⟨[], []⟩ (some [])) (some [])) :=
  ⟨C2_multi_queues_only_set_get_incr.1 0 ⟨[], []⟩ [] ["a", "b"],
   by decide,
   C2_multi_queues_only_set_get_incr.2.2.2 "RPUSH" (by decide) 0 ⟨[], []⟩ [] ["k", "x"]⟩

/-- C2 counterexample: with the connection in MULTI (empty queue), `RPUSH k
x` is **not** queued: it replies `:1`, mutates the shared keyspace (the list
is created) and leaves the queue empty. -/
theorem C2_counterexample :
    handle_command 0 ["RPUSH", "k", "x"] ⟨[], []⟩ (some [])
      = .reply (lc ":1\r\n") ⟨[("k", .list ["x"])], []⟩ (some [])
    ∧ lc ":1\r\n" ≠ lc "+QUEUED\r\n"
    ∧ (SState.mk [("k", .list ["x"])] []) ≠ ⟨[], []⟩ :=
  ⟨rfl, by decide, by decide⟩

/-! ## C8: XADD with an explicit ID -/

theorem fmtId_data (ms seq : Nat) :
    (fmtId (ms, seq)).data = natDigits ms ++ '-' :: natDigits seq := rfl

theorem natDigits_no_dash (n : Nat) : ∀ c ∈ natDigits n, c ≠ '-' :=
  fun c hc => isDigit_ne c '-' (natDigits_all_digit n c hc) (by decide)

theorem splitDash_fmtId (ms seq : Nat) :
    splitDash (natDigits ms ++ '-' :: natDigits seq) = [natDigits ms, natDigits seq] := by
  rw [splitDash_append _ _ (natDigits_no_dash ms), splitDash_sepFree _ (natDigits_no_dash seq)]

theorem fmtId_data_ne_star (ms seq : Nat) :
    ¬ (natDigits ms ++ '-' :: natDigits seq = ['*']) := by
  intro h
  have hlen := congrArg List.length h
  rw [List.length_append] at hlen
  simp only [List.length_cons, List.length_nil] at hlen
  have h1 : 0 < (natDigits ms).length := List.length_pos.mpr (natDigits_ne_nil ms)
  have h2 : 0 < (natDigits seq).length := List.length_pos.mpr (natDigits_ne_nil seq)
  omega

theorem endsDashStar_eq_false (l : List Char) (c : Char) (t : List Char)
    (h : l.reverse = c :: t) (hc : (c == '*') = false) : endsDashStar l = false := by
  unfold endsDashStar
  rw [h]
  cases t with
  | nil => rfl
  | cons c2 t2 => simp [hc]

theorem endsDashStar_fmtId (ms seq : Nat) :
    endsDashStar (natDigits ms ++ '-' :: natDigits seq) = false := by
  obtain ⟨c, t, hrev, hcd⟩ : ∃ c t, (natDigits seq).reverse = c :: t ∧ c.isDigit = true := by
    cases hq : (natDigits seq).reverse with
    | nil =>
      exact absurd (List.reverse_eq_nil_iff.mp hq) (natDigits_ne_nil seq)
    | cons c t =>
      refine ⟨c, t, rfl, natDigits_all_digit seq c ?_⟩
      rw [← List.mem_reverse, hq]
      exact List.mem_cons_self _ _
  have hr : (natDigits ms ++ '-' :: natDigits seq).reverse
      = c :: (t ++ '-' :: (natDigits ms).reverse) := by
    rw [List.reverse_append, List.reverse_cons, hrev]
    simp
  refine endsDashStar_eq_false _ c _ hr ?_
  have : c ≠ '*' := isDigit_ne c '*' hcd (by decide)
  exact beq_eq_false_iff_ne.mpr this

theorem string_eq_iff_data (s1 s2 : String) : s1 = s2 ↔ s1.data = s2.data := by
  constructor
  · exact fun h => congrArg String.data h
  · intro h
    rw [← string_mk_data s1, ← string_mk_data s2, h]

theorem parseNat?_single_zero : parseNat? ['0'] = some 0 := by decide

theorem fmtId_eq_00_iff (ms seq : Nat) : fmtId (ms, seq) = "0-0" ↔ ms = 0 ∧ seq = 0 := by
  constructor
  · intro h
    have hd := (string_eq_iff_data _ _).mp h
    rw [fmtId_data] at hd
    have h2 := congrArg splitDash hd
    rw [splitDash_fmtId] at h2
    have h3 : splitDash (("0-0" : String).data) = [['0'], ['0']] := by decide
    rw [h3] at h2
    injection h2 with e1 h2a
    injection h2a with e2 h2b
    have hm := parseNat?_natDigits ms
    have hs := parseNat?_natDigits seq
    rw [e1, parseNat?_single_zero] at hm
    rw [e2, parseNat?_single_zero] at hs
    injection hm with hm1
    injection hs with hs1
    exact ⟨hm1.symm, hs1.symm⟩
  · rintro ⟨rfl, rfl⟩
    rfl

/-- The XADD resolution of a canonically-formatted explicit `ms-seq` ID:
it validates against the stream's last entry and picks the error message by
comparing the ID text with `0-0`. -/
theorem xadd_resolve_id_fmtId (now : Nat) (st : SState) (k : String) (ms seq : Nat) :
    xadd_resolve_id now st k (fmtId (ms, seq))
      = (if validate_final_id st k ms seq then .ok (ms, seq) (fmtId (ms, seq))
         else if ms = 0 ∧ seq = 0 then .err00 else .errTop) := by
  unfold xadd_resolve_id
  have hdata : (fmtId (ms, seq)).data = natDigits ms ++ '-' :: natDigits seq := fmtId_data ms seq
  rw [hdata]
  rw [if_neg (fmtId_data_ne_star ms seq)]
  rw [endsDashStar_fmtId ms seq]
  simp only [Bool.false_eq_true, if_false]
  rw [splitDash_fmtId]
  dsimp only
  rw [parseInt?_natDigits, parseInt?_natDigits]
  simp only [Int.toNat_ofNat, fmtId_eq_00_iff]

theorem getLast?_mem_own {α : Type} : ∀ (l : List α) (a : α), l.getLast? = some a → a ∈ l := by
  intro l
  induction l with
  | nil => intro a h; cases h
  | cons x t ih =>
    intro a h
    cases t with
    | nil =>
      simp only [List.getLast?_singleton, Option.some.injEq] at h
      subst h
      exact List.mem_singleton_self _
    | cons y t2 =>
      rw [List.getLast?_cons_cons] at h
      exact List.mem_cons_of_mem _ (ih a h)

theorem pairwise_getLast {α : Type} (r : α → α → Prop) :
    ∀ (es : List α) (l : α), es.Pairwise r → es.getLast? = some l →
      ∀ e ∈ es, e = l ∨ r e l := by
  intro es
  induction es with
  | nil => intro l _ h; cases h
  | cons a t ih =>
    intro l hp hl e he
    cases t with
    | nil =>
      simp only [List.getLast?_singleton, Option.some.injEq] at hl
      subst hl
      rcases List.mem_singleton.mp he with rfl
      exact Or.inl rfl
    | cons b t2 =>
      rw [List.getLast?_cons_cons] at hl
      rcases List.mem_cons.mp he with rfl | he2
      · exact Or.inr ((List.pairwise_cons.mp hp).1 l (getLast?_mem_own _ l hl))
      · exact ih l (List.pairwise_cons.mp hp).2 hl e he2

theorem fresh_of_pairwise_last (es : List ((Nat × Nat) × List (String × String)))
    (lastE : (Nat × Nat) × List (String × String)) (id : Nat × Nat)
    (hp : es.Pairwise (fun a b => idLt a.1 b.1)) (hl : es.getLast? = some lastE)
    (hgt : idLt lastE.1 id) : ∀ e ∈ es, e.1 ≠ id := by
  intro e he heq
  have c1 := congrArg Prod.fst heq
  have c2 := congrArg Prod.snd heq
  simp only [idLt] at hgt
  rcases pairwise_getLast _ es lastE hp hl e he with rfl | hr
  · omega
  · simp only [idLt] at hr
    omega

/-- C8 (confirmed): for a key already holding a stream, an explicit
`XADD key ms-seq field value ...` behaves exactly as claimed: ID `0-0`
replies the "must be greater than 0-0" error, an ID not strictly above the
stream's last entry ID replies the "equal or smaller than the target stream
top item" error — in both cases the whole keyspace (the stream's entries
included) is unchanged — and otherwise the entry is appended at the tail
and the ID is replied as a bulk string.  The stream's entries are assumed
strictly increasing (the invariant XADD itself maintains). -/
theorem C8_xadd_explicit_id (now : Nat) (st : SState) (tx : TxState) (k : String)
    (es : List ((Nat × Nat) × List (String × String))) (ms seq : Nat) (fvs : List String)
    (hstream : dlookup st.store k = some (.stream es))
    (hfvs1 : fvs ≠ []) (hfvs2 : fvs.length % 2 = 0)
    (hsorted : es.Pairwise (fun a b => idLt a.1 b.1)) :
    (ms = 0 ∧ seq = 0 →
        handle_command now ("XADD" :: k :: fmtId (ms, seq) :: fvs) st tx
          = .reply (lc "-ERR The ID specified in XADD must be greater than 0-0\r\n") st tx)
    ∧ (∀ lastE, ¬ (ms = 0 ∧ seq = 0) → es.getLast? = some lastE →
        ¬ idLt lastE.1 (ms, seq) →
        handle_command now ("XADD" :: k :: fmtId (ms, seq) :: fvs) st tx
          = .reply
              (lc "-ERR The ID specified in XADD is equal or smaller than the target stream top item\r\n")
              st tx)
    ∧ (es = [] → ¬ (ms = 0 ∧ seq = 0) →
        handle_command now ("XADD" :: k :: fmtId (ms, seq) :: fvs) st tx
          = .reply (encode_resp (.s (fmtId (ms, seq))))
              { st with store := dset st.store k (.stream [((ms, seq), buildFields fvs)]) } tx)
    ∧ (∀ lastE, es.getLast? = some lastE → idLt lastE.1 (ms, seq) →
        handle_command now ("XADD" :: k :: fmtId (ms, seq) :: fvs) st tx
          = .reply (encode_resp (.s (fmtId (ms, seq))))
              { st with store := dset st.store k (.stream (es ++ [((ms, seq), buildFields fvs)])) } tx) := by
  have e0 : handle_command now ("XADD" :: k :: fmtId (ms, seq) :: fvs) st tx
      = cmdXADD now "XADD" (k :: fmtId (ms, seq) :: fvs) st tx := rfl
  have hlen : ¬ (("XADD" :: k :: fmtId (ms, seq) :: fvs).length < 4) := by
    have h1 : 0 < fvs.length := List.length_pos.mpr hfvs1
    simp only [List.length_cons]
    omega
  have hpar : ¬ (fvs.length % 2 ≠ 0) := by omega
  have hes : entriesOf st k = es := by simp [entriesOf, hstream]
  have estep : ∀ r : XaddIdRes, cmdXADD now "XADD" (k :: fmtId (ms, seq) :: fvs) st tx
      = (match xadd_resolve_id now st k (fmtId (ms, seq)) with
         | XaddIdRes.err00 =>
            .reply (lc "-ERR The ID specified in XADD must be greater than 0-0\r\n") st tx
         | XaddIdRes.errTop =>
            .reply
              (lc "-ERR The ID specified in XADD is equal or smaller than the target stream top item\r\n")
              st tx
         | XaddIdRes.ok fid idText =>
            .reply (encode_resp (.s idText))
              { st with store := dset st.store k (.stream (dset es fid (buildFields fvs))) } tx) := by
    intro _
    unfold cmdXADD
    rw [if_neg hlen]
    simp only [List.get?_cons_zero, List.get?_cons_succ, List.drop_succ_cons, List.drop_zero]
    rw [if_neg hpar, hstream]
    simp only [hes]
  refine ⟨fun h00 => ?_, fun lastE h00 hl hle => ?_, fun hnil h00 => ?_, fun lastE hl hlt => ?_⟩
  · have hval : validate_final_id st k ms seq = false := by
      unfold validate_final_id
      rw [if_pos h00]
    rw [e0, estep .err00, xadd_resolve_id_fmtId, hval]
    simp only [Bool.false_eq_true, if_false, if_pos h00]
  · have hval : validate_final_id st k ms seq = false := by
      unfold validate_final_id
      rw [if_neg h00, hes, hl]
      simp only [decide_eq_false_iff_not, idLt] at *
      omega
    rw [e0, estep .errTop, xadd_resolve_id_fmtId, hval]
    simp only [Bool.false_eq_true, if_false, if_neg h00]
  · have hval : validate_final_id st k ms seq = true := by
      unfold validate_final_id
      rw [if_neg h00, hes, hnil]
      rfl
    rw [e0, estep (.ok (ms, seq) (fmtId (ms, seq))), xadd_resolve_id_fmtId, hval]
    simp only [if_true, hnil]
    rfl
  · have hval : validate_final_id st k ms seq = true := by
      unfold validate_final_id
      have h00 : ¬ (ms = 0 ∧ seq = 0) := by
        intro h00
        simp only [idLt] at hlt
        omega
      rw [if_neg h00, hes, hl]
      simp only [decide_eq_true_eq, idLt] at *
      omega
    have hfresh : ∀ e ∈ es, e.1 ≠ (ms, seq) :=
      fresh_of_pairwise_last es lastE (ms, seq) hsorted hl hlt
    rw [e0, estep (.ok (ms, seq) (fmtId (ms, seq))), xadd_resolve_id_fmtId, hval]
    simp only [if_true]
    rw [dset_fresh es (ms, seq) (buildFields fvs) hfresh]

/-- C8 witness: appending `1-2` after `1-1` succeeds; the two error cases
at concrete inputs. -/
theorem C8_witness :
    handle_command 5 ["XADD", "s", fmtId (1, 2), "g", "w"]
        ⟨[("s", .stream [((1, 1), [("f", "v")])])], []⟩ none
      = .reply (encode_resp (.s (fmtId (1, 2))))
          ⟨[("s", .stream [((1, 1), [("f", "v")]), ((1, 2), [("g", "w")])])], []⟩ none
    ∧ handle_command 5 ["XADD", "s", fmtId (0, 0), "g", "w"]
        ⟨[("s", .stream [((1, 1), [("f", "v")])])], []⟩ none
      = .reply (lc "-ERR The ID specified in XADD must be greater than 0-0\r\n")
          ⟨[("s", .stream [((1, 1), [("f", "v")])])], []⟩ none
    ∧ handle_command 5 ["XADD", "s", fmtId (1, 1), "g", "w"]
        ⟨[("s", .stream [((1, 1), [("f", "v")])])], []⟩ none
      = .reply (lc "-ERR The ID specified in XADD is equal or smaller than the target stream top item\r\n")
          ⟨[("s", .stream [((1, 1), [("f", "v")])])], []⟩ none := by
  refine ⟨?_, ?_, ?_⟩
  · have h := (C8_xadd_explicit_id 5 ⟨[("s", .stream [((1, 1), [("f", "v")])])], []⟩ none "s"
      [((1, 1), [("f", "v")])] 1 2 ["g", "w"] rfl (by decide) (by decide)
      (by simp)).2.2.2 ((1, 1), [("f", "v")]) rfl (by decide)
    rw [h]
    decide
  · have h := (C8_xadd_explicit_id 5 ⟨[("s", .stream [((1, 1), [("f", "v")])])], []⟩ none "s"
      [((1, 1), [("f", "v")])] 0 0 ["g", "w"] rfl (by decide) (by decide)
      (by simp)).1 (by decide)
    rw [h]
  · have h := (C8_xadd_explicit_id 5 ⟨[("s", .stream [((1, 1), [("f", "v")])])], []⟩ none "s"
      [((1, 1), [("f", "v")])] 1 1 ["g", "w"] rfl (by decide) (by decide)
      (by simp)).2.1 ((1, 1), [("f", "v")]) (by decide) rfl (by decide)
    rw [h]

end RedisClone
